import Mathlib

/-!
Shallow embedding of the AutoHeal monitoring core (`src/main.py`).

Python dictionaries with string keys are modelled as association lists
(`List (String × α)`) with insert-or-replace semantics; a key that may be
absent from a dictionary is modelled with `Option`.  A Python value that is
either `None` or a number (as the metric entries of a health snapshot are)
is modelled by `PyNum`.  Exceptions are modelled with `Except`: a function
that can raise returns `Except Unit α` (the payload of the exception is
irrelevant to the claims).  Network and database I/O is modelled by oracle
parameters: the SNMP collector's answer for one poll is a `PollOutcome`
input, and a remediation handler's behaviour is a function-valued input.
-/

set_option autoImplicit false

namespace AutoHeal

/-- Association-list update with Python-dict semantics: replace in place if
the key exists, otherwise append at the end. -/
def dictInsert {α : Type} (k : String) (v : α) : List (String × α) → List (String × α)
  | [] => [(k, v)]
  | p :: rest => if p.1 = k then (k, v) :: rest else p :: dictInsert k v rest

/-- Association-list lookup, first occurrence wins (Python-dict lookup). -/
def dictGet {α : Type} (k : String) : List (String × α) → Option α
  | [] => none
  | p :: rest => if p.1 = k then some p.2 else dictGet k rest

/-- Operational status of one interface, from ifOperStatus. -/
inductive IfOperStatus where
  | up
  | down
deriving DecidableEq, Repr

/-- One entry of the interface dictionary built by
`SNMPMonitor._get_interface_status`. -/
structure InterfaceInfo where
  status : IfOperStatus
  admin_status : Int
deriving DecidableEq, Repr

/-- A Python value that is either `None` or a number. -/
inductive PyNum where
  | pyNone
  | num (x : ℚ)
deriving DecidableEq, Repr

/-- Device status strings used by the source: unknown, up, down, error. -/
inductive DeviceStatus where
  | unknown
  | up
  | down
  | error
deriving DecidableEq, Repr

/-- Mutable state of `NetworkDevice` (src/main.py lines 35-48). -/
structure NetworkDevice where
  ip : String
  hostname : String
  device_type : String
  snmp_community : String
  priority : String
  status : DeviceStatus
  last_seen : Option Nat
  failure_count : Nat
  interfaces : List (String × InterfaceInfo)
deriving DecidableEq, Repr

/-- One entry of the configuration's device list; the defaults mirror the
keyword defaults of `NetworkDevice.__init__`. -/
structure DeviceConfig where
  ip : String
  hostname : String
  device_type : String
  snmp_community : String := "public"
  priority : String := "medium"
deriving DecidableEq, Repr

/-- `NetworkDevice.__init__`: a freshly constructed device, with runtime
state at its initial values. -/
def NetworkDevice.init (cfg : DeviceConfig) : NetworkDevice :=
  { ip := cfg.ip
    hostname := cfg.hostname
    device_type := cfg.device_type
    snmp_community := cfg.snmp_community
    priority := cfg.priority
    status := .unknown
    last_seen := none
    failure_count := 0
    interfaces := [] }

/-- The health-data dictionary returned by `check_device_health`.  A field of
type `Option PyNum` is `none` when the key is absent from the dictionary
(the exception path returns a dictionary with only `reachable` and `error`),
`some .pyNone` when the key holds Python `None`, and `some (.num x)` when it
holds a number.  Likewise `interfaces = none` models an absent key. -/
structure HealthData where
  reachable : Bool
  uptime : Option PyNum
  cpu_usage : Option PyNum
  memory_usage : Option PyNum
  interfaces : Option (List (String × InterfaceInfo))
  error : Option String
deriving DecidableEq, Repr

/-- The collector's answer for one poll of one device, the oracle input of
`check_device_health`: a successful SNMP walk (uptime ticks plus raw
(ifDescr, ifOperStatus) pairs), a clean "not reachable" answer, or an
exception escaping the try block. -/
inductive PollOutcome where
  | success (ticks : Int) (raw_interfaces : List (String × Int))
  | unreachable
  | fault (msg : String)

/-- `SNMPMonitor._get_interface_status`: builds the interface dictionary from
raw (ifDescr, ifOperStatus) pairs; status is up iff the integer is 1. -/
def get_interface_status (raw : List (String × Int)) : List (String × InterfaceInfo) :=
  List.foldl
    (fun acc p => dictInsert p.1 ⟨if p.2 = 1 then .up else .down, p.2⟩ acc)
    [] raw

/-- `SNMPMonitor.check_device_health` (src/main.py lines 75-120): returns the
device with its status/failure-count mutation applied, together with the
health-data dictionary.  On success the metric keys are present but hold
`None` (the collector never populates them); on a collector fault the
returned dictionary has only `reachable` and `error`. -/
def check_device_health (d : NetworkDevice) (now : Nat) :
    PollOutcome → NetworkDevice × HealthData
  | .success ticks raw =>
    ({ d with status := .up, last_seen := some now, failure_count := 0 },
     { reachable := true
       uptime := some (.num ((ticks : ℚ) / 100))
       cpu_usage := some .pyNone
       memory_usage := some .pyNone
       interfaces := some (get_interface_status raw)
       error := none })
  | .unreachable =>
    ({ d with status := .down, failure_count := d.failure_count + 1 },
     { reachable := false
       uptime := some .pyNone
       cpu_usage := some .pyNone
       memory_usage := some .pyNone
       interfaces := some []
       error := none })
  | .fault msg =>
    ({ d with status := .error, failure_count := d.failure_count + 1 },
     { reachable := false
       uptime := none
       cpu_usage := none
       memory_usage := none
       interfaces := none
       error := some msg })

/-- Kind-specific details dictionary of one issue. -/
inductive IssueDetails where
  | unresponsive (failure_count : Nat) (last_seen : Option Nat)
  | interfaceDown (interfaces : List (String × InterfaceInfo))
  | highCpu (cpu_usage : ℚ)
  | memoryLeak (memory_usage : ℚ)
deriving DecidableEq, Repr

/-- The list of interface names whose status is down, in dictionary order
(the `down_interfaces` accumulator of `_analyze_health_data`). -/
def downNames (ifs : List (String × InterfaceInfo)) : List String :=
  (ifs.filter (fun p => decide (p.2.status = .down))).map Prod.fst

/-- The dictionary comprehension
`{iface: health_data['interfaces'][iface] for iface in down_interfaces}`. -/
def downSubset (ifs : List (String × InterfaceInfo)) : List (String × InterfaceInfo) :=
  (downNames ifs).filterMap (fun n => (dictGet n ifs).map (fun v => (n, v)))

/-- The evaluation of `health_data.get(key, 0) > threshold` followed, when
true, by `{detail_key: health_data[key]}`: an absent key compares as the
default `0`, a key holding `None` raises `TypeError`, and a number is
compared against the threshold. -/
def metricIssue (key : String) (mk : ℚ → IssueDetails) (m : Option PyNum)
    (threshold : ℚ) : Except Unit (List (String × IssueDetails)) :=
  match m.getD (.num 0) with
  | .pyNone => .error ()
  | .num x => .ok (if threshold < x then [(key, mk x)] else [])

/-- `AutoHealMonitor._analyze_health_data` (src/main.py lines 493-525):
builds the issues dictionary in source order (device_unresponsive,
interface_down, high_cpu, memory_leak); the CPU comparison is evaluated
before the memory comparison, and a `TypeError` from either propagates. -/
def analyze_health_data (d : NetworkDevice) (hd : HealthData) :
    Except Unit (List (String × IssueDetails)) :=
  let i1 : List (String × IssueDetails) :=
    if hd.reachable = false ∧ 3 ≤ d.failure_count then
      [("device_unresponsive", .unresponsive d.failure_count d.last_seen)]
    else []
  let ifs := hd.interfaces.getD []
  let i2 : List (String × IssueDetails) :=
    if downNames ifs = [] then []
    else [("interface_down", .interfaceDown (downSubset ifs))]
  match metricIssue "high_cpu" .highCpu hd.cpu_usage 80 with
  | .error e => .error e
  | .ok i3 =>
    match metricIssue "memory_leak" .memoryLeak hd.memory_usage 85 with
    | .error e => .error e
    | .ok i4 => .ok (i1 ++ i2 ++ i3 ++ i4)

/-- The result dictionary of a remediation attempt, `{success, message?,
error?}`; a field is `none` when the key is absent from the dictionary. -/
structure RemediationResult where
  success : Bool
  message : Option String
  error : Option String
deriving DecidableEq, Repr

/-- Behaviour of one invocation of a remediation handler method: it either
returns a result dictionary or raises an exception with the given message.
A function `NetworkDevice → String → IssueDetails → HandlerBehavior` is the
oracle describing what every handler does on every input. -/
inductive HandlerBehavior where
  | ok (r : RemediationResult)
  | raise (msg : String)
deriving DecidableEq, Repr

/-- The keys of `NetworkRemediator.remediation_methods`
(src/main.py lines 156-161). -/
def remediation_methods : List String :=
  ["interface_down", "device_unresponsive", "high_cpu", "memory_leak"]

/-- `NetworkRemediator.remediate_issue` (src/main.py lines 163-177): look up
the handler for the issue type; an unknown type yields a
`{success: False, message: 'No remediation for ...'}` result without invoking
any handler; a handler exception is caught and converted into
`{success: False, error: str(e)}`.  The second component records whether a
handler was invoked. -/
def remediate_issue (handler : NetworkDevice → String → IssueDetails → HandlerBehavior)
    (d : NetworkDevice) (issue_type : String) (details : IssueDetails) :
    RemediationResult × Bool :=
  if remediation_methods.contains issue_type then
    match handler d issue_type details with
    | .ok r => (r, true)
    | .raise m => ({ success := false, message := none, error := some m }, true)
  else
    ({ success := false
       message := some ("No remediation for " ++ issue_type)
       error := none }, false)

/-- One row of the remediation_log table, as inserted by
`DatabaseManager.log_remediation` (src/main.py lines 371-383). -/
structure RemediationRecord where
  device_ip : String
  issue_type : String
  remediation_type : String
  success : Bool
  details : RemediationResult
deriving DecidableEq, Repr

/-- `DatabaseManager.log_remediation`: builds the record appended to the
remediation log. -/
def log_remediation (device_ip issue_type remediation_type : String)
    (success : Bool) (details : RemediationResult) : RemediationRecord :=
  { device_ip, issue_type, remediation_type, success, details }

/-- The configuration flags read by `monitor_device` via
`self.config.get(..., True)`. -/
structure Config where
  alert_enabled : Bool := true
  remediation_enabled : Bool := true
deriving DecidableEq, Repr

/-- `'critical' if device.priority == 'critical' else 'medium'`. -/
def severity_for (d : NetworkDevice) : String :=
  if d.priority = "critical" then "critical" else "medium"

/-- Events of the per-device remediation path, in execution order.  The body
of `monitor_device`'s issue loop awaits each remediation and its log write
before the next loop iteration, so the trace of one device is a sequential
interleaving-free record of its dispatches. -/
inductive TraceEvent where
  | dispatchStart (issue_type : String)
  | dispatchDone (issue_type : String) (success : Bool)
  | recordAppended (issue_type : String)
deriving DecidableEq, Repr

/-- Everything observable about one `monitor_device` call: the mutated
device, the snapshot, whether the snapshot was saved, whether issue analysis
raised (the exception is caught by `monitor_device`'s own try block), the
issues dictionary, the alert attempts, the remediation records appended, and
the dispatch trace. -/
structure MonitorOutcome where
  device : NetworkDevice
  health_data : HealthData
  snapshot_saved : Bool
  analysis_fault : Bool
  issues : List (String × IssueDetails)
  alerts : List (String × IssueDetails × String)
  remediations : List RemediationRecord
  trace : List TraceEvent
deriving Repr

/-- One iteration of `monitor_device`'s issue loop (src/main.py lines
462-488): an alert attempt when alerting is enabled, then, when remediation
is enabled, one dispatch followed by one log write. -/
def handle_issue (cfg : Config)
    (handler : NetworkDevice → String → IssueDetails → HandlerBehavior)
    (d : NetworkDevice) (p : String × IssueDetails) :
    List (String × IssueDetails × String) × List RemediationRecord × List TraceEvent :=
  let alerts := if cfg.alert_enabled then [(p.1, p.2, severity_for d)] else []
  if cfg.remediation_enabled then
    let res := (remediate_issue handler d p.1 p.2).1
    (alerts, [log_remediation d.ip p.1 p.1 res.success res],
     [.dispatchStart p.1, .dispatchDone p.1 res.success, .recordAppended p.1])
  else
    (alerts, [], [])

/-- The issue loop of `monitor_device`, processing issues strictly in
dictionary order; each iteration completes before the next begins. -/
def run_issues (cfg : Config)
    (handler : NetworkDevice → String → IssueDetails → HandlerBehavior)
    (d : NetworkDevice) :
    List (String × IssueDetails) →
    List (String × IssueDetails × String) × List RemediationRecord × List TraceEvent
  | [] => ([], [], [])
  | p :: rest =>
    let h := handle_issue cfg handler d p
    let t := run_issues cfg handler d rest
    (h.1 ++ t.1, h.2.1 ++ t.2.1, h.2.2 ++ t.2.2)

/-- `AutoHealMonitor.monitor_device` (src/main.py lines 450-491): poll the
device, save the snapshot, analyze, and loop over the issues; an exception
from the analyzer is caught by the surrounding try block, so no issue is
processed for that device in that cycle. -/
def monitor_device (cfg : Config)
    (handler : NetworkDevice → String → IssueDetails → HandlerBehavior)
    (d : NetworkDevice) (now : Nat) (o : PollOutcome) : MonitorOutcome :=
  let r := check_device_health d now o
  match analyze_health_data r.1 r.2 with
  | .error _ =>
    { device := r.1, health_data := r.2, snapshot_saved := true
      analysis_fault := true, issues := [], alerts := []
      remediations := [], trace := [] }
  | .ok issues =>
    let out := run_issues cfg handler r.1 issues
    { device := r.1, health_data := r.2, snapshot_saved := true
      analysis_fault := false, issues := issues, alerts := out.1
      remediations := out.2.1, trace := out.2.2 }

/-- `AutoHealMonitor._load_devices` body for one config entry
(src/main.py lines 443-448): `self.devices[device.ip] = NetworkDevice(**cfg)`
— the registry slot receives a freshly constructed device. -/
def load_device (registry : List (String × NetworkDevice)) (cfg : DeviceConfig) :
    List (String × NetworkDevice) :=
  dictInsert cfg.ip (NetworkDevice.init cfg) registry

/-- `AutoHealMonitor._load_devices` over a whole device-config list. -/
def load_devices (registry : List (String × NetworkDevice))
    (cfgs : List DeviceConfig) : List (String × NetworkDevice) :=
  cfgs.foldl load_device registry

/-- The dictionary built by `NetworkDevice.to_dict` (src/main.py lines
50-60). -/
structure DeviceDict where
  ip : String
  hostname : String
  device_type : String
  status : DeviceStatus
  last_seen : Option Nat
  failure_count : Nat
  priority : String
  interfaces : List (String × InterfaceInfo)
deriving DecidableEq, Repr

/-- `NetworkDevice.to_dict`. -/
def NetworkDevice.to_dict (d : NetworkDevice) : DeviceDict :=
  { ip := d.ip
    hostname := d.hostname
    device_type := d.device_type
    status := d.status
    last_seen := d.last_seen
    failure_count := d.failure_count
    priority := d.priority
    interfaces := d.interfaces }

/-- The dictionary returned by `AutoHealMonitor.get_system_status`
(src/main.py lines 562-572). -/
structure SystemStatus where
  total_devices : Nat
  devices_up : Nat
  devices_down : Nat
  devices_unknown : Nat
  last_update : Nat
  devices : List DeviceDict
deriving DecidableEq, Repr

/-- `AutoHealMonitor.get_system_status`: per-status counts over the device
registry (there is no count for status error) plus one `to_dict` entry per
device. -/
def get_system_status (registry : List (String × NetworkDevice)) (now : Nat) :
    SystemStatus :=
  { total_devices := registry.length
    devices_up := (registry.filter (fun p => decide (p.2.status = .up))).length
    devices_down := (registry.filter (fun p => decide (p.2.status = .down))).length
    devices_unknown := (registry.filter (fun p => decide (p.2.status = .unknown))).length
    last_update := now
    devices := registry.map (fun p => p.2.to_dict) }

/-! ## Helper lemmas -/

/-- A metric entry that, when looked up with default 0, does not raise a
`TypeError`: the key is absent or holds a number. -/
def numOrAbsent : Option PyNum → Bool
  | some .pyNone => false
  | _ => true

theorem dictGet_append {α : Type} (k : String) (l1 l2 : List (String × α)) :
    dictGet k (l1 ++ l2) =
      match dictGet k l1 with
      | some v => some v
      | none => dictGet k l2 := by
  induction l1 with
  | nil => simp [dictGet]
  | cons p rest ih =>
    by_cases h : p.1 = k <;> simp [dictGet, h, ih]

theorem dictGet_ite_pos {α : Type} (k k' : String) (c : Prop) [Decidable c]
    (v : α) (hne : k' ≠ k) :
    dictGet k (if c then [(k', v)] else []) = none := by
  by_cases h : c <;> simp [dictGet, h, hne]

theorem dictGet_ite_neg {α : Type} (k k' : String) (c : Prop) [Decidable c]
    (v : α) (hne : k' ≠ k) :
    dictGet k (if c then [] else [(k', v)]) = none := by
  by_cases h : c <;> simp [dictGet, h, hne]

theorem dictGet_dictInsert_self {α : Type} (k : String) (v : α)
    (l : List (String × α)) : dictGet k (dictInsert k v l) = some v := by
  induction l with
  | nil => simp [dictInsert, dictGet]
  | cons p rest ih =>
    by_cases h : p.1 = k <;> simp [dictInsert, dictGet, h, ih]

theorem dictGet_dictInsert_ne {α : Type} (k k' : String) (v : α)
    (l : List (String × α)) (h : k' ≠ k) :
    dictGet k' (dictInsert k v l) = dictGet k' l := by
  have h' : ¬(k = k') := fun hh => h hh.symm
  induction l with
  | nil => simp [dictInsert, dictGet, h']
  | cons p rest ih =>
    by_cases hp : p.1 = k
    · simp [dictInsert, dictGet, hp, h']
    · simp [dictInsert, dictGet, hp, ih]

/-- Characterization of a non-raising run of `_analyze_health_data`: both
metric entries were number-or-absent, and the issues dictionary is the
concatenation of the four rule outputs in source order. -/
theorem analyze_ok_spec (d : NetworkDevice) (hd : HealthData)
    (issues : List (String × IssueDetails))
    (h : analyze_health_data d hd = .ok issues) :
    numOrAbsent hd.cpu_usage = true ∧ numOrAbsent hd.memory_usage = true ∧
    issues =
      ((if hd.reachable = false ∧ 3 ≤ d.failure_count then
        [("device_unresponsive", .unresponsive d.failure_count d.last_seen)]
      else [])
      ++ (if downNames (hd.interfaces.getD []) = [] then []
        else [("interface_down", .interfaceDown (downSubset (hd.interfaces.getD [])))]))
      ++ ((match hd.cpu_usage with
        | some (.num x) => if 80 < x then [("high_cpu", IssueDetails.highCpu x)] else []
        | _ => [])
      ++ (match hd.memory_usage with
        | some (.num x) => if 85 < x then [("memory_leak", IssueDetails.memoryLeak x)] else []
        | _ => [])) := by
  rcases hcv : hd.cpu_usage with _ | (_ | cx) <;>
    rcases hmv : hd.memory_usage with _ | (_ | mx) <;>
      simp only [analyze_health_data, metricIssue, hcv, hmv, Option.getD] at h ⊢
  all_goals
    try exact absurd h (fun hh => Except.noConfusion hh)
  all_goals
    injection h with h
  all_goals
    subst h
  all_goals
    refine ⟨rfl, rfl, ?_⟩
  all_goals
    simp [List.append_assoc]

theorem dictGet_ite_self {α : Type} (k : String) (c : Prop) [Decidable c] (v : α) :
    dictGet k (if c then [(k, v)] else []) = if c then some v else none := by
  by_cases h : c <;> simp [dictGet, h]

/-! ## Claim theorems -/

/-- Claim C1: whenever the analyzer returns an issues dictionary, the
high_cpu (resp. memory_leak) entry is present iff the snapshot's cpu (resp.
memory) metric holds a number exceeding its threshold 80 (resp. 85), and the
entry's details carry exactly that number; an absent metric never yields the
issue. -/
theorem claim_C1 (d : NetworkDevice) (hd : HealthData)
    (issues : List (String × IssueDetails))
    (h : analyze_health_data d hd = .ok issues) :
    dictGet "high_cpu" issues =
      (match hd.cpu_usage with
       | some (.num x) => if 80 < x then some (IssueDetails.highCpu x) else none
       | _ => none) ∧
    dictGet "memory_leak" issues =
      (match hd.memory_usage with
       | some (.num x) => if 85 < x then some (IssueDetails.memoryLeak x) else none
       | _ => none) := by
  obtain ⟨hc, hm, rfl⟩ := analyze_ok_spec d hd issues h
  rcases hcv : hd.cpu_usage with _ | (_ | cx) <;>
    rcases hmv : hd.memory_usage with _ | (_ | mx) <;>
      simp only [hcv, hmv] at hc hm ⊢
  all_goals try exact absurd hc (by decide)
  all_goals try exact absurd hm (by decide)
  all_goals
    refine ⟨?_, ?_⟩ <;>
      rw [dictGet_append, dictGet_append, dictGet_append,
        dictGet_ite_pos _ _ _ _ (by decide), dictGet_ite_neg _ _ _ _ (by decide)]
  · simp [dictGet]
  · simp [dictGet]
  · by_cases hmx : (85:ℚ) < mx <;> simp [dictGet, hmx]
  · by_cases hmx : (85:ℚ) < mx <;> simp [dictGet, hmx]
  · by_cases hcx : (80:ℚ) < cx <;> simp [dictGet, hcx]
  · by_cases hcx : (80:ℚ) < cx <;> simp [dictGet, hcx]
  · by_cases hcx : (80:ℚ) < cx <;> by_cases hmx : (85:ℚ) < mx <;>
      simp [dictGet, hcx, hmx]
  · by_cases hcx : (80:ℚ) < cx <;> by_cases hmx : (85:ℚ) < mx <;>
      simp [dictGet, hcx, hmx]

/-- A reachable snapshot whose cpu metric is 90 and whose memory metric is
absent, at a healthy device: concrete input for claim C1. -/
def devA : NetworkDevice :=
  { ip := "192.168.1.10", hostname := "core-switch-01", device_type := "switch"
    snmp_community := "public", priority := "critical", status := .up
    last_seen := some 100, failure_count := 0, interfaces := [] }

def hdA : HealthData :=
  { reachable := true, uptime := some (.num 12), cpu_usage := some (.num 90)
    memory_usage := none, interfaces := some [], error := none }

def issuesA : List (String × IssueDetails) := [("high_cpu", .highCpu 90)]

/-- Claim C1 witness: cpuPercent = 90 against threshold 80 raises high_cpu
with details value 90, and the absent memory metric raises nothing. -/
theorem claim_C1_witness :
    analyze_health_data devA hdA = .ok issuesA ∧
    (dictGet "high_cpu" issuesA =
      (match hdA.cpu_usage with
       | some (.num x) => if 80 < x then some (IssueDetails.highCpu x) else none
       | _ => none) ∧
     dictGet "memory_leak" issuesA =
      (match hdA.memory_usage with
       | some (.num x) => if 85 < x then some (IssueDetails.memoryLeak x) else none
       | _ => none)) :=
  ⟨rfl, claim_C1 devA hdA issuesA rfl⟩

/-- Claim C2: both non-exception paths of `check_device_health` (successful
poll and cleanly-unreachable poll) produce a snapshot whose cpu_usage key is
present and holds None, `_analyze_health_data` on such a snapshot raises
(the comparison None > 80 is a TypeError), and `monitor_device` catches the
fault, producing no issues, no alerts and no remediation records for that
device. -/
theorem claim_C2 (d : NetworkDevice) (now : Nat) (ticks : Int)
    (raw : List (String × Int)) (cfg : Config)
    (handler : NetworkDevice → String → IssueDetails → HandlerBehavior) :
    (check_device_health d now (.success ticks raw)).2.cpu_usage = some .pyNone ∧
    (check_device_health d now .unreachable).2.cpu_usage = some .pyNone ∧
    analyze_health_data (check_device_health d now (.success ticks raw)).1
      (check_device_health d now (.success ticks raw)).2 = .error () ∧
    analyze_health_data (check_device_health d now .unreachable).1
      (check_device_health d now .unreachable).2 = .error () ∧
    (monitor_device cfg handler d now (.success ticks raw)).analysis_fault = true ∧
    (monitor_device cfg handler d now (.success ticks raw)).issues = [] ∧
    (monitor_device cfg handler d now (.success ticks raw)).alerts = [] ∧
    (monitor_device cfg handler d now (.success ticks raw)).remediations = [] ∧
    (monitor_device cfg handler d now .unreachable).analysis_fault = true ∧
    (monitor_device cfg handler d now .unreachable).issues = [] ∧
    (monitor_device cfg handler d now .unreachable).alerts = [] ∧
    (monitor_device cfg handler d now .unreachable).remediations = [] :=
  ⟨rfl, rfl, rfl, rfl, rfl, rfl, rfl, rfl, rfl, rfl, rfl, rfl⟩

/-- Claim C3: whenever the analyzer returns an issues dictionary, the
device_unresponsive entry is present iff the snapshot is unreachable and the
device's consecutive-failure count (as already updated by the poll) is at
least 3. -/
theorem claim_C3 (d : NetworkDevice) (hd : HealthData)
    (issues : List (String × IssueDetails))
    (h : analyze_health_data d hd = .ok issues) :
    (dictGet "device_unresponsive" issues).isSome = true ↔
      (hd.reachable = false ∧ 3 ≤ d.failure_count) := by
  obtain ⟨hc, hm, rfl⟩ := analyze_ok_spec d hd issues h
  rcases hcv : hd.cpu_usage with _ | (_ | cx) <;>
    rcases hmv : hd.memory_usage with _ | (_ | mx) <;>
      simp only [hcv, hmv] at hc hm ⊢
  all_goals try exact absurd hc (by decide)
  all_goals try exact absurd hm (by decide)
  all_goals
    rw [dictGet_append, dictGet_append, dictGet_append, dictGet_ite_self,
      dictGet_ite_neg _ _ _ _ (by decide)]
  all_goals
    by_cases hcnd : (hd.reachable = false ∧ 3 ≤ d.failure_count) <;>
      simp only [hcnd, if_pos, if_neg, not_false_iff, iff_true, iff_false]
  all_goals try simp [dictGet, hcnd]
  all_goals try (by_cases hcx : (80:ℚ) < cx <;> simp [dictGet, hcx, hcnd])
  all_goals try (by_cases hmx : (85:ℚ) < mx <;> simp [dictGet, hmx, hcnd])

/-- A device on its third consecutive failed poll, with the collector-fault
snapshot of that poll: concrete input for claim C3. -/
def devB : NetworkDevice :=
  { ip := "192.168.1.11", hostname := "access-switch-01", device_type := "switch"
    snmp_community := "public", priority := "high", status := .error
    last_seen := some 100, failure_count := 3, interfaces := [] }

def hdB : HealthData :=
  { reachable := false, uptime := none, cpu_usage := none
    memory_usage := none, interfaces := none, error := some "timeout" }

def issuesB : List (String × IssueDetails) :=
  [("device_unresponsive", .unresponsive 3 (some 100))]

/-- Claim C3 witness: with failure count 3 and an unreachable snapshot the
device_unresponsive issue is present. -/
theorem claim_C3_witness :
    analyze_health_data devB hdB = .ok issuesB ∧
    ((dictGet "device_unresponsive" issuesB).isSome = true ↔
      (hdB.reachable = false ∧ 3 ≤ devB.failure_count)) :=
  ⟨rfl, claim_C3 devB hdB issuesB rfl⟩

/-- Claim C4: a successful poll resets the consecutive-failure count to 0; a
cleanly-unreachable poll and a collector fault each increment it by exactly
1 (the count lives in Nat, so it is never negative). -/
theorem claim_C4 (d : NetworkDevice) (now : Nat) :
    (∀ ticks raw,
      (check_device_health d now (.success ticks raw)).1.failure_count = 0) ∧
    ((check_device_health d now .unreachable).1.failure_count
      = d.failure_count + 1) ∧
    (∀ msg,
      (check_device_health d now (.fault msg)).1.failure_count
        = d.failure_count + 1) :=
  ⟨fun _ _ => rfl, rfl, fun _ => rfl⟩

theorem downNames_mem_keys {ifs : List (String × InterfaceInfo)} {n : String}
    (h : n ∈ downNames ifs) : n ∈ ifs.map Prod.fst := by
  simp only [downNames, List.mem_map, List.mem_filter] at h
  obtain ⟨p, ⟨hp, _⟩, rfl⟩ := h
  exact List.mem_map.mpr ⟨p, hp, rfl⟩

/-- On an interface dictionary (whose keys are unique), the dictionary
comprehension over the down names equals the down-filtered sublist. -/
theorem downSubset_eq_filter (ifs : List (String × InterfaceInfo))
    (h : (ifs.map Prod.fst).Nodup) :
    downSubset ifs = ifs.filter (fun p => decide (p.2.status = .down)) := by
  induction ifs with
  | nil => rfl
  | cons p rest ih =>
    simp only [List.map_cons, List.nodup_cons] at h
    obtain ⟨hk, hrest⟩ := h
    have hcongr :
        (downNames rest).filterMap
          (fun n => (dictGet n (p :: rest)).map (fun v => (n, v))) =
        (downNames rest).filterMap
          (fun n => (dictGet n rest).map (fun v => (n, v))) := by
      apply List.filterMap_congr
      intro n hn
      have hne : ¬(p.1 = n) := fun hh => hk (hh ▸ downNames_mem_keys hn)
      simp [dictGet, hne]
    have hnames : downNames (p :: rest)
        = (if p.2.status = .down then [p.1] else []) ++ downNames rest := by
      by_cases hs : p.2.status = .down <;> simp [downNames, List.filter_cons, hs]
    have hmain : downSubset (p :: rest)
        = (downNames (p :: rest)).filterMap
            (fun n => (dictGet n (p :: rest)).map (fun v => (n, v))) := rfl
    have hds : (downNames rest).filterMap
        (fun n => (dictGet n rest).map (fun v => (n, v))) = downSubset rest := rfl
    rw [hmain, hnames, List.filterMap_append, hcongr, hds, ih hrest]
    by_cases hs : p.2.status = .down <;>
      simp [hs, List.filter_cons, List.filterMap_cons, dictGet, Prod.mk.eta]

theorem dictGet_ite_self_neg {α : Type} (k : String) (c : Prop) [Decidable c]
    (v : α) :
    dictGet k (if c then [] else [(k, v)]) = if c then none else some v := by
  by_cases h : c <;> simp [dictGet, h]

/-- An unreachable snapshot carrying a down interface, at a device with no
failure history: concrete input for claim C5. -/
def devC : NetworkDevice :=
  { ip := "192.168.1.12", hostname := "edge-switch-01", device_type := "switch"
    snmp_community := "public", priority := "medium", status := .up
    last_seen := some 100, failure_count := 0, interfaces := [] }

def hdC : HealthData :=
  { reachable := false, uptime := none, cpu_usage := none
    memory_usage := none, interfaces := some [("eth0", ⟨.down, 2⟩)]
    error := none }

def issuesC : List (String × IssueDetails) :=
  [("interface_down", .interfaceDown [("eth0", ⟨.down, 2⟩)])]

/-- Claim C5 counterexample: the analyzer raises interface_down on a
snapshot whose reachable flag is false, so "raised iff the snapshot is
reachable and some interface is down" is violated at this input. -/
theorem claim_C5_counterexample :
    hdC.reachable = false ∧
    analyze_health_data devC hdC = .ok issuesC ∧
    (dictGet "interface_down" issuesC).isSome = true :=
  ⟨rfl, rfl, rfl⟩

/-- Claim C5 (amended): whenever the analyzer returns an issues dictionary
for a snapshot whose interface dictionary has unique keys, the
interface_down entry is present iff at least one interface in the snapshot's
interface dictionary is down — the reachable flag is not consulted — and its
details are exactly the down subset of that dictionary. -/
theorem claim_C5 (d : NetworkDevice) (hd : HealthData)
    (issues : List (String × IssueDetails))
    (h : analyze_health_data d hd = .ok issues)
    (hn : ((hd.interfaces.getD []).map Prod.fst).Nodup) :
    dictGet "interface_down" issues =
      (if (hd.interfaces.getD []).filter (fun p => decide (p.2.status = .down)) = []
       then none
       else some (.interfaceDown
         ((hd.interfaces.getD []).filter (fun p => decide (p.2.status = .down))))) := by
  obtain ⟨hc, hm, rfl⟩ := analyze_ok_spec d hd issues h
  have hsub := downSubset_eq_filter (hd.interfaces.getD []) hn
  have hiff : (downNames (hd.interfaces.getD []) = []) ↔
      ((hd.interfaces.getD []).filter (fun p => decide (p.2.status = .down)) = []) := by
    simp [downNames]
  rcases hcv : hd.cpu_usage with _ | (_ | cx) <;>
    rcases hmv : hd.memory_usage with _ | (_ | mx) <;>
      simp only [hcv, hmv] at hc hm ⊢
  all_goals try exact absurd hc (by decide)
  all_goals try exact absurd hm (by decide)
  all_goals
    rw [dictGet_append, dictGet_append, dictGet_append,
      dictGet_ite_pos _ _ _ _ (by decide), dictGet_ite_self_neg]
  all_goals
    by_cases hcnd : downNames (hd.interfaces.getD []) = []
  all_goals
    try (rw [if_neg hcnd, if_neg (fun hh => hcnd (hiff.mpr hh))]
         simp [dictGet, hsub])
  all_goals try simp [dictGet, hcnd, hiff.mp hcnd, hsub]
  all_goals try (by_cases hcx : (80:ℚ) < cx <;> simp [dictGet, hcx])
  all_goals try (by_cases hmx : (85:ℚ) < mx <;> simp [dictGet, hmx])

/-- Claim C5 witness: the amended claim applied at a concrete snapshot with
one down interface. -/
theorem claim_C5_witness :
    analyze_health_data devC hdC = .ok issuesC ∧
    ((hdC.interfaces.getD []).map Prod.fst).Nodup ∧
    dictGet "interface_down" issuesC =
      (if (hdC.interfaces.getD []).filter (fun p => decide (p.2.status = .down)) = []
       then none
       else some (.interfaceDown
         ((hdC.interfaces.getD []).filter (fun p => decide (p.2.status = .down))))) :=
  ⟨rfl, by decide, claim_C5 devC hdC issuesC rfl (by decide)⟩

theorem run_issues_rem_length (cfg : Config)
    (handler : NetworkDevice → String → IssueDetails → HandlerBehavior)
    (d : NetworkDevice) (l : List (String × IssueDetails)) :
    (run_issues cfg handler d l).2.1.length =
      if cfg.remediation_enabled then l.length else 0 := by
  induction l with
  | nil => cases hb : cfg.remediation_enabled <;> simp [run_issues, hb]
  | cons p rest ih =>
    cases hb : cfg.remediation_enabled <;>
      simp [run_issues, handle_issue, hb, ih]

/-- Claim C6: in one monitoring cycle for one device, exactly one
remediation record is appended per raised issue when remediation is
enabled — whatever the dispatch outcome, since the handler oracle is
universally quantified — and none when it is disabled. -/
theorem claim_C6 (cfg : Config)
    (handler : NetworkDevice → String → IssueDetails → HandlerBehavior)
    (d : NetworkDevice) (now : Nat) (o : PollOutcome) :
    (monitor_device cfg handler d now o).remediations.length =
      (if cfg.remediation_enabled
       then (monitor_device cfg handler d now o).issues.length else 0) := by
  rcases hA : analyze_health_data (check_device_health d now o).1
      (check_device_health d now o).2 with e | issues <;>
    simp [monitor_device, hA, run_issues_rem_length]

/-- Claim C7: dispatch of an unregistered issue type returns a failed result
with a "No remediation for ..." message and invokes no handler; a handler
that raises has its fault caught and converted into a failed result carrying
the cause as error.  `remediate_issue` is a total function of the handler
oracle, so a handler fault never propagates. -/
theorem claim_C7 (handler : NetworkDevice → String → IssueDetails → HandlerBehavior)
    (d : NetworkDevice) (details : IssueDetails) (issue_type : String) (m : String) :
    (remediation_methods.contains issue_type = false →
      remediate_issue handler d issue_type details =
        ({ success := false
           message := some ("No remediation for " ++ issue_type)
           error := none }, false)) ∧
    (remediation_methods.contains issue_type = true →
      handler d issue_type details = .raise m →
      remediate_issue handler d issue_type details =
        ({ success := false, message := none, error := some m }, true)) := by
  constructor
  · intro h
    have h' : issue_type ∉ remediation_methods := by simpa using h
    simp [remediate_issue, h']
  · intro h hr
    have h' : issue_type ∈ remediation_methods := by simpa using h
    simp [remediate_issue, h', hr]

/-- A handler oracle whose every invocation raises. -/
def handlerRaise : NetworkDevice → String → IssueDetails → HandlerBehavior :=
  fun _ _ _ => .raise "ssh timeout"

def devD : NetworkDevice :=
  { ip := "192.168.1.13", hostname := "plc-gw-01", device_type := "router"
    snmp_community := "public", priority := "low", status := .up
    last_seen := some 100, failure_count := 0, interfaces := [] }

/-- Claim C7 witness: an unregistered issue type and a raising handler, each
at a concrete input. -/
theorem claim_C7_witness :
    (remediation_methods.contains "dns_failure" = false ∧
      remediate_issue handlerRaise devD "dns_failure" (.highCpu 90) =
        ({ success := false
           message := some ("No remediation for " ++ "dns_failure")
           error := none }, false)) ∧
    (remediation_methods.contains "high_cpu" = true ∧
      handlerRaise devD "high_cpu" (.highCpu 90) = .raise "ssh timeout" ∧
      remediate_issue handlerRaise devD "high_cpu" (.highCpu 90) =
        ({ success := false, message := none, error := some "ssh timeout" }, true)) :=
  ⟨⟨rfl, (claim_C7 handlerRaise devD (.highCpu 90) "dns_failure" "ssh timeout").1 rfl⟩,
   ⟨rfl, rfl, (claim_C7 handlerRaise devD (.highCpu 90) "high_cpu" "ssh timeout").2 rfl rfl⟩⟩

theorem run_issues_trace_blocks (cfg : Config)
    (handler : NetworkDevice → String → IssueDetails → HandlerBehavior)
    (d : NetworkDevice) (he : cfg.remediation_enabled = true) :
    ∀ l : List (String × IssueDetails), ∃ results : List Bool,
      results.length = l.length ∧
      (run_issues cfg handler d l).2.2 =
        ((l.zip results).flatMap
          (fun q => [TraceEvent.dispatchStart q.1.1,
                     TraceEvent.dispatchDone q.1.1 q.2,
                     TraceEvent.recordAppended q.1.1])) := by
  intro l
  induction l with
  | nil => exact ⟨[], rfl, rfl⟩
  | cons p rest ih =>
    obtain ⟨rs, hlen, htr⟩ := ih
    refine ⟨(remediate_issue handler d p.1 p.2).1.success :: rs, by simp [hlen], ?_⟩
    simp [run_issues, handle_issue, he, htr]

/-- Claim C10: with remediation enabled, the dispatch trace of one device's
cycle is exactly the concatenation, in issue order, of one contiguous block
per issue — dispatch start, dispatch completion, record append — so the
dispatch of one issue completes and its record is appended before the next
dispatch begins, and dispatches for one device never interleave. -/
theorem claim_C10 (cfg : Config)
    (handler : NetworkDevice → String → IssueDetails → HandlerBehavior)
    (d : NetworkDevice) (now : Nat) (o : PollOutcome)
    (he : cfg.remediation_enabled = true) :
    ∃ results : List Bool,
      results.length = (monitor_device cfg handler d now o).issues.length ∧
      (monitor_device cfg handler d now o).trace =
        (((monitor_device cfg handler d now o).issues.zip results).flatMap
          (fun q => [TraceEvent.dispatchStart q.1.1,
                     TraceEvent.dispatchDone q.1.1 q.2,
                     TraceEvent.recordAppended q.1.1])) := by
  rcases hA : analyze_health_data (check_device_health d now o).1
      (check_device_health d now o).2 with e | issues
  · exact ⟨[], by simp [monitor_device, hA], by simp [monitor_device, hA]⟩
  · obtain ⟨rs, hlen, htr⟩ := run_issues_trace_blocks cfg handler
      (check_device_health d now o).1 he issues
    exact ⟨rs, by simp [monitor_device, hA, hlen], by simp [monitor_device, hA, htr]⟩

/-- A handler oracle whose every invocation returns success. -/
def handlerOk : NetworkDevice → String → IssueDetails → HandlerBehavior :=
  fun _ _ _ => .ok { success := true, message := some "Device rebooted", error := none }

def devE : NetworkDevice :=
  { ip := "192.168.1.14", hostname := "cam-sw-01", device_type := "switch"
    snmp_community := "public", priority := "medium", status := .down
    last_seen := none, failure_count := 2, interfaces := [] }

/-- Claim C10 witness: a concrete cycle (collector fault raising
device_unresponsive) under the default configuration. -/
theorem claim_C10_witness :
    ∃ results : List Bool,
      results.length =
        (monitor_device {} handlerOk devE 5 (.fault "timeout")).issues.length ∧
      (monitor_device {} handlerOk devE 5 (.fault "timeout")).trace =
        (((monitor_device {} handlerOk devE 5 (.fault "timeout")).issues.zip results).flatMap
          (fun q => [TraceEvent.dispatchStart q.1.1,
                     TraceEvent.dispatchDone q.1.1 q.2,
                     TraceEvent.recordAppended q.1.1])) :=
  claim_C10 {} handlerOk devE 5 (.fault "timeout") rfl

/-- A registered device with accumulated runtime health state, and a config
entry reusing its IP: concrete input for claim C8. -/
def devOld : NetworkDevice :=
  { ip := "192.168.1.10", hostname := "core-switch-01", device_type := "switch"
    snmp_community := "public", priority := "critical", status := .down
    last_seen := some 100, failure_count := 2
    interfaces := [("Gi0/1", ⟨.up, 1⟩)] }

def regOld : List (String × NetworkDevice) := [("192.168.1.10", devOld)]

def cfgNew : DeviceConfig :=
  { ip := "192.168.1.10", hostname := "core-switch-01-renamed"
    device_type := "switch", snmp_community := "private", priority := "high" }

/-- Claim C8 counterexample: reloading a config entry for an IP already in
the registry resets the device's runtime health state — the failure count
drops from 2 to 0, the status from down to unknown, and lastSeen is cleared
— so "preserves the device's runtime health state" is violated at this
input. -/
theorem claim_C8_counterexample :
    (dictGet "192.168.1.10" regOld).map NetworkDevice.failure_count = some 2 ∧
    (dictGet "192.168.1.10" regOld).map NetworkDevice.status = some .down ∧
    (dictGet "192.168.1.10" regOld).map NetworkDevice.last_seen = some (some 100) ∧
    (dictGet "192.168.1.10" (load_device regOld cfgNew)).map
      NetworkDevice.failure_count = some 0 ∧
    (dictGet "192.168.1.10" (load_device regOld cfgNew)).map
      NetworkDevice.status = some .unknown ∧
    (dictGet "192.168.1.10" (load_device regOld cfgNew)).map
      NetworkDevice.last_seen = some none :=
  ⟨rfl, rfl, rfl, rfl, rfl, rfl⟩

/-- Claim C8 (amended): registering a device configuration whose IP already
exists replaces the whole registry slot with a freshly constructed device —
configuration fields applied, runtime health state (status, failure count,
lastSeen, interfaces) reset to initial values — while every other device's
slot is untouched. -/
theorem claim_C8 (reg : List (String × NetworkDevice)) (cfg : DeviceConfig) :
    dictGet cfg.ip (load_device reg cfg) = some (NetworkDevice.init cfg) ∧
    (∀ ip, ip ≠ cfg.ip →
      dictGet ip (load_device reg cfg) = dictGet ip reg) := by
  constructor
  · exact dictGet_dictInsert_self cfg.ip (NetworkDevice.init cfg) reg
  · intro ip h
    exact dictGet_dictInsert_ne cfg.ip ip (NetworkDevice.init cfg) reg h

/-- Claim C8 witness: the amended claim at the concrete registry and config,
with a concrete unrelated IP for the frame part. -/
theorem claim_C8_witness :
    dictGet cfgNew.ip (load_device regOld cfgNew) = some (NetworkDevice.init cfgNew) ∧
    ("10.9.9.9" : String) ≠ cfgNew.ip ∧
    dictGet "10.9.9.9" (load_device regOld cfgNew) = dictGet "10.9.9.9" regOld :=
  ⟨(claim_C8 regOld cfgNew).1, by decide,
   (claim_C8 regOld cfgNew).2 "10.9.9.9" (by decide)⟩

/-- Every device's status is exactly one of up, down, unknown, error, so the
four per-status filters partition the registry. -/
theorem status_counts_partition (reg : List (String × NetworkDevice)) :
    (reg.filter (fun p => decide (p.2.status = .up))).length
    + (reg.filter (fun p => decide (p.2.status = .down))).length
    + (reg.filter (fun p => decide (p.2.status = .unknown))).length
    + (reg.filter (fun p => decide (p.2.status = .error))).length = reg.length := by
  induction reg with
  | nil => rfl
  | cons p rest ih =>
    rcases hs : p.2.status <;> simp [List.filter_cons, hs] <;> omega

/-- A registry holding a single device with status error: concrete input for
claim C9. -/
def devErr : NetworkDevice :=
  { ip := "10.0.0.9", hostname := "hmi-panel-01", device_type := "hmi"
    snmp_community := "public", priority := "medium", status := .error
    last_seen := none, failure_count := 5, interfaces := [] }

def regErr : List (String × NetworkDevice) := [("10.0.0.9", devErr)]

/-- Claim C9 counterexample: a device with status error is counted in no
per-status aggregate, so the aggregates sum to 0 while the total is 1 —
"every device is counted in exactly one per-status aggregate, and the
counts sum to the total" is violated at this input. -/
theorem claim_C9_counterexample :
    (get_system_status regErr 7).total_devices = 1 ∧
    (get_system_status regErr 7).devices_up = 0 ∧
    (get_system_status regErr 7).devices_down = 0 ∧
    (get_system_status regErr 7).devices_unknown = 0 ∧
    (get_system_status regErr 7).devices_up
      + (get_system_status regErr 7).devices_down
      + (get_system_status regErr 7).devices_unknown
      ≠ (get_system_status regErr 7).total_devices := by
  refine ⟨rfl, rfl, rfl, rfl, ?_⟩
  decide

/-- Claim C9 (amended): the status query returns one to_dict record (ip,
hostname, device type, status, lastSeen, failure count, priority,
interfaces) per registered device, and aggregates counting only up, down and
unknown devices: the three aggregates plus the number of error-status
devices equal the total, so the aggregates alone undercount whenever an
error-status device exists. -/
theorem claim_C9 (reg : List (String × NetworkDevice)) (now : Nat) :
    (get_system_status reg now).devices = reg.map (fun p => p.2.to_dict) ∧
    (get_system_status reg now).total_devices = reg.length ∧
    (get_system_status reg now).devices_up
      + (get_system_status reg now).devices_down
      + (get_system_status reg now).devices_unknown
      + (reg.filter (fun p => decide (p.2.status = .error))).length
      = (get_system_status reg now).total_devices :=
  ⟨rfl, rfl, status_counts_partition reg⟩

end AutoHeal
